import Mathlib

/-!
Verification of `src/claude_client.py` (class `ClaudeClient`) from the
telegram-claude repository: a shallow embedding of `send_message` and
`clear_session`, followed by theorems settling the specification claims.

Modelling conventions:
* The mutable instance attribute `self.cleared` becomes explicit state
  (`ClientState`), passed in and returned.
* The child process spawned by `asyncio.create_subprocess_exec` is a
  parameter `run : List String → ProcResult`: given the argv list, it
  yields the exit code and the decoded stdout/stderr text.  Exactly one
  child process is spawned per call, on exactly the built command, which
  the model records in the `cmd` field of the outcome.
* Python's `json.loads` (standard library, not repository code) is a
  parameter `jsonLoads : String → Option Json`; `none` models a raised
  `json.JSONDecodeError`.
* Python values that can flow out of `response_data.get("result", "")`
  are modelled by the `Json` inductive; Python truthiness (`if not
  content`) is `Json.truthy`.  Calling `.get` on a parsed value that is
  not a dict raises `AttributeError`, modelled by `PyError.attributeError`.
* `raise RuntimeError(...)` and exception propagation are modelled with
  `Except PyError`.
* `str.strip()` is `pyStrip` (drop leading and trailing whitespace);
  `bytes.decode()` is elided (stdout and stderr are modelled directly as
  decoded text).
-/

namespace TelegramClaude

/-- A JSON value as produced by `json.loads` (numbers restricted to
integers; no claim depends on floats).  Association lists for objects
have distinct keys, as Python dicts do. -/
inductive Json where
  | null : Json
  | bool : Bool → Json
  | num : Int → Json
  | str : String → Json
  | arr : List Json → Json
  | obj : List (String × Json) → Json

/-- Python truthiness of a JSON value (`if not content:`). -/
def Json.truthy : Json → Bool
  | .null => false
  | .bool b => b
  | .num n => n != 0
  | .str s => s != ""
  | .arr xs => !xs.isEmpty
  | .obj kvs => !kvs.isEmpty

/-- The mutable state of a `ClaudeClient`: the `self.cleared` flag
(`__init__` sets it to `False`). -/
structure ClientState where
  cleared : Bool

/-- Outcome of one child process: exit code and decoded stdout/stderr. -/
structure ProcResult where
  returncode : Int
  stdout : String
  stderr : String

/-- Exceptions that `send_message` can raise. -/
inductive PyError where
  /-- `raise RuntimeError(f"Claude CLI failed: ...")` on nonzero exit. -/
  | runtimeError : String → PyError
  /-- `AttributeError` from `response_data.get(...)` when the parsed
  JSON value is not a dict. -/
  | attributeError : PyError

/-- Lines 41-42: if `image_path` is given, rewrite the message to tell
Claude to read the file, then respond to the original message. -/
def rewriteMessage (message : String) (imagePath : Option String) : String :=
  match imagePath with
  | some p =>
      "Use your Read tool to read the image at this path: " ++ p
        ++ "\n\nThen respond to: " ++ message
  | none => message

/-- Lines 45-55: build the Claude command; `--continue` is appended
exactly when `use_continue and not self.cleared`. -/
def buildCmd (claudeBin message : String) (useContinue cleared : Bool) :
    List String :=
  let cmd := [claudeBin, "-p", message, "--output-format", "json"]
  if useContinue && !cleared then cmd ++ ["--continue"] else cmd

/-- Line 82: sentinel returned when the `result` field is missing/falsy. -/
def emptySentinel : String := "*(Claude returned an empty response)*"

/-- Line 89: sentinel returned when stdout is unparseable and blank. -/
def parseSentinel : String := "*(Unable to parse Claude response)*"

/-- Python `str.strip()`: remove leading and trailing whitespace
(structural recursion on the character list, so it evaluates). -/
def pyStrip (s : String) : String :=
  ⟨((s.data.dropWhile Char.isWhitespace).reverse.dropWhile
      Char.isWhitespace).reverse⟩

/-- Lines 74-89: parse stdout.  On a JSON object, take
`response_data.get("result", "")`; a falsy value yields the empty
sentinel.  On a non-dict JSON value, `.get` raises `AttributeError`.
On a `json.JSONDecodeError` (`jsonLoads _ = none`), fall back to the
trimmed raw stdout, or the parse sentinel if that is empty. -/
def handleStdout (jsonLoads : String → Option Json) (stdout : String) :
    Except PyError Json :=
  match jsonLoads stdout with
  | some (.obj kvs) =>
      let content := (kvs.lookup "result").getD (.str "")
      if content.truthy then .ok content else .ok (.str emptySentinel)
  | some _ => .error .attributeError
  | none =>
      let raw := pyStrip stdout
      .ok (.str (if raw != "" then raw else parseSentinel))

/-- Lines 66-89: what `send_message` does with the finished child
process: nonzero exit raises `RuntimeError` carrying the trimmed stderr
(lines 69-72), zero exit hands stdout to the JSON handling. -/
def runOutcome (jsonLoads : String → Option Json) (res : ProcResult) :
    Except PyError Json :=
  if res.returncode != 0 then
    .error (.runtimeError ("Claude CLI failed: " ++ pyStrip res.stderr))
  else
    handleStdout jsonLoads res.stdout

/-- One `send_message` call: the argv handed to the child process, the
returned value or raised exception, and the client state afterwards. -/
structure SendOutcome where
  cmd : List String
  result : Except PyError Json
  state : ClientState

/-- `ClaudeClient.send_message` (lines 22-93).  The message is rewritten
for an attachment, the command is built from the flag state, the flag is
unconditionally set to `False` (line 56, before the subprocess is
launched), then exactly one child process runs the command and its
outcome is handled.  The outer `except Exception: raise` re-raises
unchanged and adds no behaviour. -/
def sendMessage (jsonLoads : String → Option Json) (claudeBin : String)
    (st : ClientState) (message : String) (userId : Int)
    (useContinue : Bool) (imagePath : Option String)
    (run : List String → ProcResult) : SendOutcome :=
  let msg := rewriteMessage message imagePath
  let cmd := buildCmd claudeBin msg useContinue st.cleared
  { cmd := cmd
    result := runOutcome jsonLoads (run cmd)
    state := { cleared := false } }

/-- `ClaudeClient.clear_session` (lines 95-111): sets `self.cleared` to
`True` and returns `True`.  The `except` branch (return `False`) guards
a plain boolean attribute assignment, which cannot raise, so the body of
the `try` is the whole behaviour. -/
def clearSession (st : ClientState) (userId : Int) : Bool × ClientState :=
  (true, { cleared := true })

/-- `n` consecutive `clear_session` calls (user ids are ignored by
`clear_session`, so only the count matters). -/
def clearN : Nat → ClientState → ClientState
  | 0, st => st
  | n + 1, st => clearN n (clearSession st 0).2

/-- A `json.loads` behaviour recognising the valid JSON text `[1]` as
the array `[1]` (as Python's parser does), used as a concrete parser
instance. -/
def jsonLoadsArr : String → Option Json :=
  fun s => if s = "[1]" then some (.arr [.num 1]) else none

/-- A `json.loads` behaviour recognising the object text
`{"result": "hello"}` (as Python's parser does), used as a concrete
parser instance. -/
def jsonLoadsHello : String → Option Json :=
  fun s =>
    if s = "\x7b\"result\": \"hello\"\x7d" then
      some (.obj [("result", .str "hello")])
    else none

/-- C1: the command handed to the child process is exactly
`[binary, "-p", effective_prompt, "--output-format", "json"]` with
`"--continue"` appended iff `use_continue` is true and the cleared flag
is false at the call; in particular with `use_continue = false` (and no
attachment) the command never includes `"--continue"`, whatever the
flag state. -/
theorem send_cmd_exact (jl : String → Option Json) (bin : String)
    (st : ClientState) (m : String) (uid : Int) (uc : Bool)
    (ip : Option String) (run : List String → ProcResult) :
    (sendMessage jl bin st m uid uc ip run).cmd
      = [bin, "-p", rewriteMessage m ip, "--output-format", "json"]
        ++ (if uc && !st.cleared then ["--continue"] else [])
    ∧ (sendMessage jl bin st m uid false none run).cmd
      = [bin, "-p", m, "--output-format", "json"] := by
  constructor
  · show buildCmd bin (rewriteMessage m ip) uc st.cleared = _
    unfold buildCmd
    split <;> simp_all
  · rfl

/-- C2: every terminating `send_message` call, on any input and any
child-process outcome (success or error), leaves the cleared flag
false. -/
theorem send_clears_flag (jl : String → Option Json) (bin : String)
    (st : ClientState) (m : String) (uid : Int) (uc : Bool)
    (ip : Option String) (run : List String → ProcResult) :
    (sendMessage jl bin st m uid uc ip run).state.cleared = false := rfl

/-- C3: `clear_session()` followed immediately by
`send_message(P, use_continue := true)` omits `"--continue"` for that
call only, and a subsequent `send_message(P2, use_continue := true)`
with no intervening `clear_session()` includes `"--continue"`; both
sends leave the flag in the normal (false) state. -/
theorem clear_then_send (jl jl2 : String → Option Json) (bin : String)
    (st : ClientState) (uid uid2 : Int) (p p2 : String)
    (ip ip2 : Option String) (run run2 : List String → ProcResult) :
    (sendMessage jl bin (clearSession st uid).2 p uid true ip run).cmd
      = [bin, "-p", rewriteMessage p ip, "--output-format", "json"]
    ∧ (sendMessage jl bin (clearSession st uid).2 p uid true ip run).state.cleared
      = false
    ∧ (sendMessage jl2 bin
        (sendMessage jl bin (clearSession st uid).2 p uid true ip run).state
        p2 uid2 true ip2 run2).cmd
      = [bin, "-p", rewriteMessage p2 ip2, "--output-format", "json",
          "--continue"]
    ∧ (sendMessage jl2 bin
        (sendMessage jl bin (clearSession st uid).2 p uid true ip run).state
        p2 uid2 true ip2 run2).state.cleared = false :=
  ⟨rfl, rfl, rfl, rfl⟩

/-- C4 (counterexample): the claim that `send_message` never raises due
to the content of stdout on a zero exit is false: with stdout `[1]`,
valid JSON that is not an object (second conjunct shows it parses), the
child exits 0 yet `send_message` raises an `AttributeError` from
`response_data.get`. -/
theorem send_raises_on_valid_nonobject_stdout :
    (sendMessage jsonLoadsArr "claude" { cleared := false } "hi" 1 true none
        (fun _ => { returncode := 0, stdout := "[1]", stderr := "" })).result
      = .error .attributeError
    ∧ jsonLoadsArr "[1]" = some (.arr [.num 1]) :=
  ⟨rfl, rfl⟩

/-- C4 (amended): for every child-process run that exits 0 whose stdout
is not valid JSON (`json.loads` raises), `send_message` returns the raw
stdout trimmed, or the parse sentinel if that trimmed text is empty —
it never fails because the output is unparseable.  (When stdout is
valid JSON that is not an object, `send_message` does raise, so the
unrestricted "never raises due to stdout content" form is false.) -/
theorem send_unparseable_fallback (jl : String → Option Json)
    (bin : String) (st : ClientState) (m : String) (uid : Int) (uc : Bool)
    (ip : Option String) (run : List String → ProcResult) (res : ProcResult)
    (hres : run (buildCmd bin (rewriteMessage m ip) uc st.cleared) = res)
    (h0 : res.returncode = 0)
    (hp : jl res.stdout = none) :
    (sendMessage jl bin st m uid uc ip run).result
      = .ok (.str (if pyStrip res.stdout != "" then pyStrip res.stdout
          else parseSentinel)) := by
  show runOutcome jl (run (buildCmd bin (rewriteMessage m ip) uc st.cleared)) = _
  rw [hres]
  unfold runOutcome
  simp only [h0, bne_self_eq_false, Bool.false_eq_true, if_false]
  unfold handleStdout
  rw [hp]

/-- C4 witness: a run exiting 0 with unparseable stdout `not json`
falls back to the raw trimmed text. -/
theorem send_unparseable_fallback_witness :
    (sendMessage (fun _ => none) "claude" { cleared := false } "hi" 1 true none
        (fun _ => { returncode := 0, stdout := "not json", stderr := "" })).result
      = .ok (.str "not json") := by
  have h := send_unparseable_fallback (fun _ => none) "claude"
      { cleared := false } "hi" 1 true none
      (fun _ => { returncode := 0, stdout := "not json", stderr := "" })
      { returncode := 0, stdout := "not json", stderr := "" } rfl rfl rfl
  exact h.trans (by rfl)

/-- C5: on a zero exit with stdout a valid JSON object, a non-empty
string `result` field is returned exactly (other fields ignored, since
only the `result` lookup matters); a missing or empty-string `result`
field yields the empty-response sentinel. -/
theorem send_result_field (jl : String → Option Json) (bin : String)
    (st : ClientState) (m : String) (uid : Int) (uc : Bool)
    (ip : Option String) (run : List String → ProcResult) (res : ProcResult)
    (kvs : List (String × Json))
    (hres : run (buildCmd bin (rewriteMessage m ip) uc st.cleared) = res)
    (h0 : res.returncode = 0)
    (hobj : jl res.stdout = some (.obj kvs)) :
    (∀ r : String, kvs.lookup "result" = some (.str r) → r ≠ "" →
        (sendMessage jl bin st m uid uc ip run).result = .ok (.str r))
    ∧ ((kvs.lookup "result" = none ∨ kvs.lookup "result" = some (.str "")) →
        (sendMessage jl bin st m uid uc ip run).result
          = .ok (.str emptySentinel)) := by
  have key : (sendMessage jl bin st m uid uc ip run).result
      = handleStdout jl res.stdout := by
    show runOutcome jl (run (buildCmd bin (rewriteMessage m ip) uc st.cleared)) = _
    rw [hres]
    unfold runOutcome
    simp [h0]
  constructor
  · intro r hl hr
    rw [key]
    unfold handleStdout
    rw [hobj]
    simp [hl, Json.truthy, hr]
  · intro hl
    rw [key]
    unfold handleStdout
    rw [hobj]
    rcases hl with hl | hl <;> simp [hl, Json.truthy]

/-- C5 witness: a simulated process writing `(\x7b"result": "hello"\x7d)`
and exiting 0 makes `send_message` return exactly `hello`. -/
theorem send_result_field_witness :
    (sendMessage jsonLoadsHello "claude" { cleared := false } "hi" 1 false none
        (fun _ => ⟨0, "\x7b\"result\": \"hello\"\x7d", ""⟩)).result
      = .ok (.str "hello") := by
  have h := send_result_field jsonLoadsHello "claude" { cleared := false }
      "hi" 1 false none
      (fun _ => ⟨0, "\x7b\"result\": \"hello\"\x7d", ""⟩)
      ⟨0, "\x7b\"result\": \"hello\"\x7d", ""⟩
      [("result", .str "hello")] rfl rfl (by rfl)
  exact h.1 "hello" rfl (by decide)

/-- C6: a nonzero exit makes `send_message` raise a `RuntimeError`
whose message contains the (trimmed) captured stderr text, and a zero
exit never produces this error. -/
theorem send_error_on_nonzero_returncode (jl : String → Option Json)
    (bin : String) (st : ClientState) (m : String) (uid : Int) (uc : Bool)
    (ip : Option String) (run : List String → ProcResult) (res : ProcResult)
    (hres : run (buildCmd bin (rewriteMessage m ip) uc st.cleared) = res) :
    (res.returncode ≠ 0 →
      (sendMessage jl bin st m uid uc ip run).result
        = .error (.runtimeError ("Claude CLI failed: " ++ pyStrip res.stderr))
      ∧ ∃ pre : String,
          "Claude CLI failed: " ++ pyStrip res.stderr = pre ++ pyStrip res.stderr)
    ∧ (res.returncode = 0 →
      ∀ msg : String, (sendMessage jl bin st m uid uc ip run).result
        ≠ .error (.runtimeError msg)) := by
  have key : (sendMessage jl bin st m uid uc ip run).result
      = runOutcome jl res := by
    show runOutcome jl (run (buildCmd bin (rewriteMessage m ip) uc st.cleared)) = _
    rw [hres]
  constructor
  · intro hne
    refine ⟨?_, "Claude CLI failed: ", rfl⟩
    rw [key]
    unfold runOutcome
    simp [hne]
  · intro h0 msg
    rw [key]
    unfold runOutcome
    simp only [h0, bne_self_eq_false, Bool.false_eq_true, if_false]
    unfold handleStdout
    rcases hj : jl res.stdout with _ | j
    · intro hcon
      cases hcon
    · rcases j with _ | b | n | s | xs | kvs <;> intro hcon <;> try cases hcon
      · dsimp only at hcon
        split at hcon <;> cases hcon

/-- C6 witness: a simulated process exiting 1 with stderr `boom` makes
`send_message` raise an error containing `boom`. -/
theorem send_error_on_nonzero_returncode_witness :
    (sendMessage (fun _ => none) "claude" { cleared := false } "hi" 1 true none
        (fun _ => { returncode := 1, stdout := "", stderr := "boom" })).result
      = .error (.runtimeError ("Claude CLI failed: " ++ "boom")) := by
  have h := send_error_on_nonzero_returncode (fun _ => none) "claude"
      { cleared := false } "hi" 1 true none
      (fun _ => { returncode := 1, stdout := "", stderr := "boom" })
      { returncode := 1, stdout := "", stderr := "boom" } rfl
  exact ((h.1 (by decide)).1).trans (by rfl)

/-- C7: with an attachment path the prompt placed in the command (index
2 of the argv) is the rewritten message, which contains the path and the
original message; with no attachment the prompt is the message
unchanged. -/
theorem send_attachment_in_prompt (jl : String → Option Json) (bin : String)
    (st : ClientState) (m : String) (uid : Int) (uc : Bool) (p : String)
    (run : List String → ProcResult) :
    (sendMessage jl bin st m uid uc (some p) run).cmd.get? 2
      = some (rewriteMessage m (some p))
    ∧ (∃ pre mid : String,
        rewriteMessage m (some p) = pre ++ p ++ mid ++ m)
    ∧ (sendMessage jl bin st m uid uc none run).cmd.get? 2 = some m := by
  refine ⟨?_, ⟨"Use your Read tool to read the image at this path: ",
      "\n\nThen respond to: ", rfl⟩, ?_⟩
  · show (buildCmd bin (rewriteMessage m (some p)) uc st.cleared).get? 2 = _
    unfold buildCmd
    split <;> rfl
  · show (buildCmd bin (rewriteMessage m none) uc st.cleared).get? 2 = _
    unfold buildCmd
    split <;> rfl

/-- C8: for every `N > 1`, calling `clear_session` `N` times
consecutively leaves the flag in the same state, and has the same
effect on the next `send_message` call, as calling it once. -/
theorem clear_session_idempotent (N : Nat) (hN : 1 < N)
    (st : ClientState) (jl : String → Option Json) (bin : String)
    (m : String) (uid : Int) (uc : Bool) (ip : Option String)
    (run : List String → ProcResult) :
    clearN N st = clearN 1 st
    ∧ sendMessage jl bin (clearN N st) m uid uc ip run
        = sendMessage jl bin (clearN 1 st) m uid uc ip run := by
  have h : ∀ (n : Nat) (st' : ClientState), clearN (n + 1) st' = ⟨true⟩ := by
    intro n
    induction n with
    | zero => intro st'; rfl
    | succ k ih => intro st'; exact ih _
  obtain ⟨M, rfl⟩ : ∃ M, N = M + 1 := ⟨N - 1, by omega⟩
  rw [h M st, h 0 st]
  exact ⟨rfl, rfl⟩

/-- C8 witness: two consecutive `clear_session` calls from the initial
state equal one. -/
theorem clear_session_idempotent_witness :
    1 < 2
    ∧ clearN 2 { cleared := false } = clearN 1 { cleared := false } :=
  ⟨by decide,
    (clear_session_idempotent 2 (by decide) { cleared := false }
      (fun _ => none) "claude" "hi" 1 true none
      (fun _ => ⟨0, "", ""⟩)).1⟩

/-- C9: `clear_session` always sets the flag to true and returns true,
for every client state and every user id; the defensive false-returning
branch guards a plain boolean assignment and is unreachable, so no
execution raises or returns false. -/
theorem clear_session_returns_true (st : ClientState) (uid : Int) :
    clearSession st uid = (true, { cleared := true }) := rfl

/-- C10: the `user_id` argument is ignored: for any two user ids, with
the same state, message, options and child-process behaviour,
`send_message` builds the same command, produces the same result or
error, and leaves the same state, and `clear_session` has the same
effect and return value — no per-user session isolation. -/
theorem user_id_ignored (jl : String → Option Json) (bin : String)
    (st : ClientState) (m : String) (u1 u2 : Int) (uc : Bool)
    (ip : Option String) (run : List String → ProcResult) :
    sendMessage jl bin st m u1 uc ip run = sendMessage jl bin st m u2 uc ip run
    ∧ clearSession st u1 = clearSession st u2 :=
  ⟨rfl, rfl⟩

end TelegramClaude
